import Mathlib

/-!
Shallow embedding of `src/server.py` (Yahoo Finance MCP server).

The server defines five tool handlers, each of which calls the external
yfinance provider, reshapes the result into a JSON string, and converts any
raised exception into an `"Error: <message>"` string.

Python runtime values flowing through the handlers (provider dictionaries,
news items, cell values) are modelled by the dynamic type `PyVal`; the
provider calls themselves are modelled as `Except String` inputs to each
handler (the provider is an external library, outside this repository).
Serialization (`json.dumps` / pandas `to_json`) is modelled by `dumps`;
indentation and number formatting are abstracted, field structure and
ordering are kept.
-/

namespace YF

/-- Dynamic Python/JSON value: `None`, strings, numbers, lists, dicts. -/
inductive PyVal where
  | none
  | str (s : String)
  | num (n : Int)
  | list (xs : List PyVal)
  | dict (fields : List (String × PyVal))

/-- Escape a character for a JSON string literal. -/
def escChar (c : Char) : String :=
  if c = '"' then "\\\"" else if c = '\\' then "\\\\" else String.singleton c

/-- Escape a string for a JSON string literal. -/
def esc (s : String) : String :=
  String.join (s.data.map escChar)

mutual
/-- Model of JSON serialization (`json.dumps` / pandas `to_json`):
whitespace/indent options are abstracted away. -/
def dumps : PyVal → String
  | .none => "null"
  | .str s => "\"" ++ esc s ++ "\""
  | .num n => toString n
  | .list xs => "[" ++ dumpsList xs ++ "]"
  | .dict fs => "\x7b" ++ dumpsFields fs ++ "\x7d"

def dumpsList : List PyVal → String
  | [] => ""
  | [x] => dumps x
  | x :: xs => dumps x ++ ", " ++ dumpsList xs

def dumpsFields : List (String × PyVal) → String
  | [] => ""
  | [(k, v)] => "\"" ++ esc k ++ "\": " ++ dumps v
  | (k, v) :: fs => "\"" ++ esc k ++ "\": " ++ dumps v ++ ", " ++ dumpsFields fs
end

mutual
/-- Model of Python `str()` on a dynamic value. -/
def pyStr : PyVal → String
  | .none => "None"
  | .str s => s
  | .num n => toString n
  | .list xs => "[" ++ pyStrList xs ++ "]"
  | .dict fs => "\x7b" ++ pyStrFields fs ++ "\x7d"

def pyStrList : List PyVal → String
  | [] => ""
  | [x] => pyStr x
  | x :: xs => pyStr x ++ ", " ++ pyStrList xs

def pyStrFields : List (String × PyVal) → String
  | [] => ""
  | [(k, v)] => k ++ ": " ++ pyStr v
  | (k, v) :: fs => k ++ ": " ++ pyStr v ++ ", " ++ pyStrFields fs
end

/-- A Python dict with string keys (e.g. `ticker.info`). -/
abbrev Dict := List (String × PyVal)

/-- `d.get(k)`: the stored value when the key is present (even when that
value is `None`), and `None` when the key is absent. -/
def dGet (d : Dict) (k : String) : PyVal :=
  (d.lookup k).getD .none

/-- `d.get(k, default)`: the stored value when present, else `default`. -/
def dGetD (d : Dict) (k : String) (default : PyVal) : PyVal :=
  (d.lookup k).getD default

/-- Python truthiness of a dynamic value. -/
def PyVal.truthy : PyVal → Bool
  | .none => false
  | .str s => s ≠ ""
  | .num n => n ≠ 0
  | .list xs => ¬ xs.isEmpty
  | .dict fs => ¬ fs.isEmpty

/-- Python `a or b` (short-circuit on truthiness). -/
def pyOr (a b : PyVal) : PyVal :=
  if a.truthy then a else b

/-- Python `v[:n]` on a dynamic value: slices strings and lists, raises
`TypeError` on anything else (in particular on `None`). -/
def pySlice (v : PyVal) (n : Nat) : Except String PyVal :=
  match v with
  | .str s => .ok (.str (s.take n))
  | .list xs => .ok (.list (xs.take n))
  | _ => .error "TypeError: object is not subscriptable"

/-- `v.get(k, default)` on a dynamic value: dict lookup when `v` is a dict,
`AttributeError` otherwise (e.g. `.get` on `None` or on a string). -/
def PyVal.get (v : PyVal) (k : String) (default : PyVal) : Except String PyVal :=
  match v with
  | .dict fs => .ok ((fs.lookup k).getD default)
  | _ => .error "AttributeError: object has no attribute get"

/-- The `try/except` wrapper shared by all five handlers: a normal result is
returned as-is, a raised exception `e` becomes the string `"Error: " ++ str(e)`. -/
def wrap (body : Except String String) : String :=
  match body with
  | .ok s => s
  | .error e => "Error: " ++ e

/-- `xs.tail(n)` in pandas: the last `n` rows, in order. -/
def tailN (n : Nat) (xs : List α) : List α :=
  xs.drop (xs.length - n)

/-! ### get_stock_info -/

/-- The dict literal built by `get_stock_info` (server.py lines 19-34), given
the already-computed truncated summary value. -/
def infoFields (symbol : String) (info : Dict) (summary : PyVal) :
    List (String × PyVal) :=
  [ ("symbol", .str symbol.toUpper),
    ("name", dGet info "longName"),
    ("price", pyOr (dGet info "currentPrice") (dGet info "regularMarketPrice")),
    ("currency", dGet info "currency"),
    ("marketCap", dGet info "marketCap"),
    ("peRatio", dGet info "trailingPE"),
    ("52WeekHigh", dGet info "fiftyTwoWeekHigh"),
    ("52WeekLow", dGet info "fiftyTwoWeekLow"),
    ("volume", dGet info "volume"),
    ("avgVolume", dGet info "averageVolume"),
    ("dividendYield", dGet info "dividendYield"),
    ("sector", dGet info "sector"),
    ("industry", dGet info "industry"),
    ("summary", summary) ]

/-- Body of `get_stock_info` inside the `try`: fetch `ticker.info`, compute
`info.get("longBusinessSummary", "")[:500]` (which raises when the stored
value is neither a string nor a list), serialize the field dict. -/
def infoBody (symbol : String) (fetchInfo : Except String Dict) :
    Except String String :=
  match fetchInfo with
  | .error e => .error e
  | .ok info =>
    match pySlice (dGetD info "longBusinessSummary" (.str "")) 500 with
    | .error e => .error e
    | .ok summary => .ok (dumps (.dict (infoFields symbol info summary)))

/-- `get_stock_info` handler (server.py lines 13-36). -/
def get_stock_info (symbol : String) (fetchInfo : Except String Dict) : String :=
  wrap (infoBody symbol fetchInfo)

/-! ### get_historical_prices -/

/-- One output row of a serialized frame: column name / cell value pairs in
column order. -/
abbrev Row := List (String × PyVal)

/-- A pandas DataFrame with a named index, as returned by `ticker.history`
and `ticker.recommendations`: index name, column names, and rows carrying
the index value plus the cells keyed by column name. -/
structure Frame where
  indexName : String
  colNames : List String
  rows : List (PyVal × Row)

/-- `df.empty`: true when the frame has no rows or no columns. -/
def Frame.isEmpty (f : Frame) : Bool :=
  f.rows.isEmpty || f.colNames.isEmpty

/-- `df.reset_index()`: the index becomes the first column, named after the
index. -/
def Frame.resetIndex (f : Frame) : List Row :=
  f.rows.map (fun p => (f.indexName, p.1) :: p.2)

/-- Column names after `reset_index()`. -/
def Frame.resetCols (f : Frame) : List String :=
  f.indexName :: f.colNames

/-- `df[c] = df[c].astype(str)`: every cell of column `c` replaced by its
`str()` image. -/
def stringifyCol (c : String) (rows : List Row) : List Row :=
  rows.map (fun r => r.map (fun kv =>
    if kv.1 = c then (kv.1, PyVal.str (pyStr kv.2)) else kv))

/-- `df.to_json(orient="records")`: a JSON array of one object per row. -/
def toJsonRecords (rows : List Row) : String :=
  dumps (.list (rows.map PyVal.dict))

/-- The date of a serialized row: the value of its `Date` field when that
value is a string, `""` otherwise. -/
def dateStr (r : Row) : String :=
  match r.lookup "Date" with
  | some (.str s) => s
  | _ => ""

/-- Body of `get_historical_prices` inside the `try` (server.py lines 45-52):
fetch the history frame; empty frame becomes a not-found string; otherwise
`reset_index()`, stringify the `Date` column (a `KeyError` is raised when no
column is named `Date`, e.g. for an intraday `Datetime` index), and serialize
the last 20 rows. -/
def histBody (symbol : String) (fetchHist : Except String Frame) :
    Except String String :=
  match fetchHist with
  | .error e => .error e
  | .ok hist =>
    if hist.isEmpty then .ok ("No data found for " ++ symbol)
    else
      let rows := hist.resetIndex
      if "Date" ∈ hist.resetCols then
        .ok (toJsonRecords (tailN 20 (stringifyCol "Date" rows)))
      else .error "KeyError: Date"

/-- `get_historical_prices` handler (server.py lines 38-54). The `period` and
`interval` parameters are forwarded to the provider call. -/
def get_historical_prices (symbol period interval : String)
    (fetchHist : String → String → Except String Frame) : String :=
  wrap (histBody symbol (fetchHist period interval))

/-! ### get_stock_news -/

/-- Field extraction for one news item (server.py lines 66-70):
`item.get("content", {}).get("title", item.get("title", "No title"))` etc.;
raises when an intermediate value is not a dict. -/
def extractArticle (item : PyVal) : Except String PyVal :=
  match item.get "content" (.dict []) with
  | .error e => .error e
  | .ok content =>
    match item.get "title" (.str "No title") with
    | .error e => .error e
    | .ok legacyTitle =>
      match content.get "title" legacyTitle with
      | .error e => .error e
      | .ok title =>
        match content.get "provider" (.dict []) with
        | .error e => .error e
        | .ok provider =>
          match provider.get "displayName" (.str "Unknown") with
          | .error e => .error e
          | .ok publisher =>
            match content.get "canonicalUrl" (.dict []) with
            | .error e => .error e
            | .ok curl =>
              match curl.get "url" (.str "") with
              | .error e => .error e
              | .ok link =>
                .ok (.dict [("title", title), ("publisher", publisher),
                            ("link", link)])

/-- The `for item in news[:5]` loop building `articles`: extraction runs
left to right and the first raised exception aborts the loop. -/
def extractAll : List PyVal → Except String (List PyVal)
  | [] => .ok []
  | item :: rest =>
    match extractArticle item with
    | .error e => .error e
    | .ok a =>
      match extractAll rest with
      | .error e => .error e
      | .ok as => .ok (a :: as)

/-- Body of `get_stock_news` inside the `try` (server.py lines 59-71): fetch
`ticker.news`; empty list becomes a not-found string; otherwise extract
title/publisher/link from the first 5 items and serialize. -/
def newsBody (symbol : String) (fetchNews : Except String (List PyVal)) :
    Except String String :=
  match fetchNews with
  | .error e => .error e
  | .ok news =>
    if news.isEmpty then .ok ("No news found for " ++ symbol)
    else
      match extractAll (news.take 5) with
      | .error e => .error e
      | .ok articles => .ok (dumps (.list articles))

/-- `get_stock_news` handler (server.py lines 56-73). -/
def get_stock_news (symbol : String) (fetchNews : Except String (List PyVal)) :
    String :=
  wrap (newsBody symbol fetchNews)

/-! ### get_financial_statement -/

/-- A financial-statement frame (`ticker.financials` etc.): string row labels
(line items), column labels (period end dates, arbitrary values before the
`astype(str)` cast), and the cells of each row in column order. -/
structure FinFrame where
  colLabels : List PyVal
  rows : List (String × List PyVal)

/-- `df.empty` for a statement frame. -/
def FinFrame.isEmpty (f : FinFrame) : Bool :=
  f.rows.isEmpty || f.colLabels.isEmpty

/-- `data.columns = data.columns.astype(str); data.head(10).to_json(orient="index")`
(server.py lines 94-95): stringify the column labels, keep the first 10 rows,
serialize as an object indexed by row label. -/
def finSerialize (data : FinFrame) : String :=
  let labels := data.colLabels.map pyStr
  dumps (.dict ((data.rows.take 10).map (fun p =>
    (p.1, PyVal.dict (labels.zip p.2)))))

/-- Shared tail of the valid-statement branches of `get_financial_statement`:
empty frame becomes a not-found string, otherwise serialize. -/
def finRender (symbol statement_type : String)
    (fetch : Except String FinFrame) : Except String String :=
  match fetch with
  | .error e => .error e
  | .ok data =>
    if data.isEmpty then
      .ok ("No " ++ statement_type ++ " data for " ++ symbol)
    else .ok (finSerialize data)

/-- Body of `get_financial_statement` inside the `try` (server.py lines
81-95): dispatch on `statement_type`; an unrecognized value returns the
usage string without touching any provider table. -/
def finBody (symbol statement_type : String)
    (financials balance_sheet cashflow : Except String FinFrame) :
    Except String String :=
  if statement_type = "income" then finRender symbol statement_type financials
  else if statement_type = "balance" then
    finRender symbol statement_type balance_sheet
  else if statement_type = "cashflow" then
    finRender symbol statement_type cashflow
  else .ok "Invalid statement_type. Use: income, balance, or cashflow"

/-- `get_financial_statement` handler (server.py lines 75-97). -/
def get_financial_statement (symbol statement_type : String)
    (financials balance_sheet cashflow : Except String FinFrame) : String :=
  wrap (finBody symbol statement_type financials balance_sheet cashflow)

/-! ### get_recommendations -/

/-- `recs['Date'] = recs['Date'].astype(str) if 'Date' in recs.columns else ""`
(server.py line 108): stringify the `Date` column when it exists, otherwise
assign a new `Date` column holding the empty string in every row. -/
def recsDateFix (cols : List String) (rows : List Row) : List Row :=
  if "Date" ∈ cols then stringifyCol "Date" rows
  else rows.map (fun r => r ++ [("Date", PyVal.str "")])

/-- Body of `get_recommendations` inside the `try` (server.py lines 102-109):
fetch `ticker.recommendations` (which may be `None`); missing or empty frame
becomes a not-found string; otherwise `reset_index()`, fix the `Date` column,
and serialize the last 10 rows. -/
def recsBody (symbol : String) (fetchRecs : Except String (Option Frame)) :
    Except String String :=
  match fetchRecs with
  | .error e => .error e
  | .ok none => .ok ("No recommendations for " ++ symbol)
  | .ok (some recs) =>
    if recs.isEmpty then .ok ("No recommendations for " ++ symbol)
    else
      let rows := recs.resetIndex
      .ok (toJsonRecords (tailN 10 (recsDateFix recs.resetCols rows)))

/-- `get_recommendations` handler (server.py lines 99-111). -/
def get_recommendations (symbol : String)
    (fetchRecs : Except String (Option Frame)) : String :=
  wrap (recsBody symbol fetchRecs)

/-! ### Concrete inputs used in counterexamples and witnesses -/

/-- A non-empty, intraday-style history frame: the index resets to a column
named `Datetime`, not `Date` (as `ticker.history(interval="1m")` returns). -/
def intradayFrame : Frame :=
  ⟨"Datetime", ["Open"], [(.str "2024-01-02 09:30:00", [("Open", .num 100)])]⟩

/-- A non-empty daily history frame, whose index resets to a `Date` column. -/
def dailyFrame : Frame :=
  ⟨"Date", ["Open", "Close"],
   [(.str "2024-01-02", [("Open", .num 10), ("Close", .num 11)]),
    (.str "2024-01-03", [("Open", .num 11), ("Close", .num 12)])]⟩

/-- A news item whose modern `content.title` field is present but null. -/
def nullTitleItem : PyVal := .dict [("content", .dict [("title", PyVal.none)])]

/-- The article `extractArticle` builds from `nullTitleItem`. -/
def nullTitleArticle : Row :=
  [("title", PyVal.none), ("publisher", .str "Unknown"), ("link", .str "")]

/-- A provider info mapping whose `longBusinessSummary` is present but null. -/
def nullSummaryInfo : Dict := [("longBusinessSummary", PyVal.none)]

/-- A provider info mapping with `currentPrice` equal to `0` and a non-null
`regularMarketPrice`. -/
def zeroPriceInfo : Dict :=
  [("currentPrice", .num 0), ("regularMarketPrice", .num 123)]

/-- A non-empty recommendations frame with the usual integer index. -/
def recsFrame : Frame :=
  ⟨"index", ["period", "strongBuy"],
   [(.num 0, [("period", .str "0m"), ("strongBuy", .num 7)]),
    (.num 1, [("period", .str "-1m"), ("strongBuy", .num 6)])]⟩

/-! ## Helper lemmas -/

theorem err_head (e : String) : ("Error: " ++ e).data.head? = some 'E' := by
  rw [String.data_append]; rfl

theorem dumps_dict_head (fs : List (String × PyVal)) :
    (dumps (.dict fs)).data.head? = some '{' := by
  show ("\x7b" ++ dumpsFields fs ++ "\x7d").data.head? = some '{'
  rw [String.data_append, String.data_append]; rfl

theorem dumps_list_head (xs : List PyVal) :
    (dumps (.list xs)).data.head? = some '[' := by
  show ("[" ++ dumpsList xs ++ "]").data.head? = some '['
  rw [String.data_append, String.data_append]; rfl

theorem nodata_head (s : String) :
    ("No data found for " ++ s).data.head? = some 'N' := by
  rw [String.data_append]; rfl

theorem err_ne_dumps_dict (e : String) (fs : List (String × PyVal)) :
    "Error: " ++ e ≠ dumps (.dict fs) := by
  intro h
  have h2 : ("Error: " ++ e).data.head? = (dumps (.dict fs)).data.head? := by
    rw [h]
  rw [err_head, dumps_dict_head] at h2
  simp at h2

theorem err_ne_dumps_list (e : String) (xs : List PyVal) :
    "Error: " ++ e ≠ dumps (.list xs) := by
  intro h
  have h2 : ("Error: " ++ e).data.head? = (dumps (.list xs)).data.head? := by
    rw [h]
  rw [err_head, dumps_list_head] at h2
  simp at h2

theorem nodata_ne_err (s e : String) :
    "No data found for " ++ s ≠ "Error: " ++ e := by
  intro h
  have h2 : ("No data found for " ++ s).data.head? =
      ("Error: " ++ e).data.head? := by rw [h]
  rw [nodata_head, err_head] at h2
  simp at h2

theorem tailN_length_le (n : Nat) (xs : List α) : (tailN n xs).length ≤ n := by
  simp only [tailN, List.length_drop]
  omega

theorem tailN_suffix (n : Nat) (xs : List α) : tailN n xs <:+ xs :=
  List.drop_suffix _ _

theorem extractAll_length (xs : List PyVal) (ys : List PyVal)
    (h : extractAll xs = .ok ys) : ys.length = xs.length := by
  induction xs generalizing ys with
  | nil => simp [extractAll] at h; simp [← h]
  | cons x xs ih =>
    simp only [extractAll] at h
    cases hx : extractArticle x with
    | error e => rw [hx] at h; exact absurd h (by simp)
    | ok a =>
      rw [hx] at h
      cases hr : extractAll xs with
      | error e => rw [hr] at h; exact absurd h (by simp)
      | ok as =>
        rw [hr] at h
        cases h
        simp [ih as hr]

theorem extractAll_mem (xs ys : List PyVal) (h : extractAll xs = .ok ys) :
    ∀ a ∈ ys, ∃ x ∈ xs, extractArticle x = .ok a := by
  induction xs generalizing ys with
  | nil =>
    simp [extractAll] at h
    subst h
    simp
  | cons x xs ih =>
    simp only [extractAll] at h
    cases hx : extractArticle x <;> rw [hx] at h
    · exact absurd h (by simp)
    · cases hr : extractAll xs <;> rw [hr] at h
      · exact absurd h (by simp)
      · cases h
        intro a ha
        rcases List.mem_cons.mp ha with rfl | ha
        · exact ⟨x, List.mem_cons_self _ _, hx⟩
        · obtain ⟨x', hx', he⟩ := ih _ hr a ha
          exact ⟨x', List.mem_cons_of_mem _ hx', he⟩

theorem extractArticle_shape (item : PyVal) (a : PyVal)
    (h : extractArticle item = .ok a) :
    ∃ t p l, a = .dict [("title", t), ("publisher", p), ("link", l)] := by
  unfold extractArticle at h
  cases h1 : item.get "content" (.dict []) <;> simp only [h1] at h
  case error => exact absurd h (by simp)
  case ok content =>
  cases h2 : item.get "title" (.str "No title") <;> simp only [h2] at h
  case error => exact absurd h (by simp)
  case ok legacyTitle =>
  cases h3 : content.get "title" legacyTitle <;> simp only [h3] at h
  case error => exact absurd h (by simp)
  case ok title =>
  cases h4 : content.get "provider" (.dict []) <;> simp only [h4] at h
  case error => exact absurd h (by simp)
  case ok provider =>
  cases h5 : provider.get "displayName" (.str "Unknown") <;> simp only [h5] at h
  case error => exact absurd h (by simp)
  case ok publisher =>
  cases h6 : content.get "canonicalUrl" (.dict []) <;> simp only [h6] at h
  case error => exact absurd h (by simp)
  case ok curl =>
  cases h7 : curl.get "url" (.str "") <;> simp only [h7] at h
  case error => exact absurd h (by simp)
  case ok link =>
  cases h
  exact ⟨title, publisher, link, rfl⟩

theorem take_of_empty (n : Nat) : ("" : String).take n = "" := by
  apply String.ext
  simp

/-- Success path of `get_stock_info`: when the summary slice does not raise,
the output is the serialized field dict. -/
theorem info_ok (symbol : String) (info : Dict) (summary : PyVal)
    (hok : pySlice (dGetD info "longBusinessSummary" (.str "")) 500 =
      .ok summary) :
    get_stock_info symbol (.ok info) =
      dumps (.dict (infoFields symbol info summary)) := by
  simp [get_stock_info, infoBody, wrap, hok]

/-- When `longBusinessSummary` is absent, the summary slice succeeds and
yields the empty string. -/
theorem slice_absent (info : Dict)
    (h : info.lookup "longBusinessSummary" = Option.none) :
    pySlice (dGetD info "longBusinessSummary" (.str "")) 500 =
      .ok (.str "") := by
  simp [dGetD, h, pySlice, take_of_empty]

/-! ## Claims -/

/-- C1: every one of the five handlers converts any exception raised by the
provider call or by a subsequent processing step into the normal string
result `"Error: <message>"`; a handler is a total function into `String`, so
no exception crosses the tool boundary. The first five conjuncts cover an
arbitrary raising step (the body evaluating to an error); the last five cover
the provider call itself raising. -/
theorem C1_error_to_string :
    (∀ s f e, infoBody s f = .error e → get_stock_info s f = "Error: " ++ e) ∧
    (∀ s p i f e, histBody s (f p i) = .error e →
      get_historical_prices s p i f = "Error: " ++ e) ∧
    (∀ s f e, newsBody s f = .error e → get_stock_news s f = "Error: " ++ e) ∧
    (∀ s t f1 f2 f3 e, finBody s t f1 f2 f3 = .error e →
      get_financial_statement s t f1 f2 f3 = "Error: " ++ e) ∧
    (∀ s f e, recsBody s f = .error e → get_recommendations s f = "Error: " ++ e) ∧
    (∀ s e, infoBody s (.error e) = .error e) ∧
    (∀ s e, histBody s (.error e) = .error e) ∧
    (∀ s e, newsBody s (.error e) = .error e) ∧
    (∀ s t e, t = "income" ∨ t = "balance" ∨ t = "cashflow" →
      finBody s t (.error e) (.error e) (.error e) = .error e) ∧
    (∀ s e, recsBody s (.error e) = .error e) := by
  refine ⟨?_, ?_, ?_, ?_, ?_, ?_, ?_, ?_, ?_, ?_⟩
  · intro s f e h; simp [get_stock_info, wrap, h]
  · intro s p i f e h; simp [get_historical_prices, wrap, h]
  · intro s f e h; simp [get_stock_news, wrap, h]
  · intro s t f1 f2 f3 e h; simp [get_financial_statement, wrap, h]
  · intro s f e h; simp [get_recommendations, wrap, h]
  · intro s e; rfl
  · intro s e; rfl
  · intro s e; rfl
  · intro s t e h
    rcases h with h | h | h <;> subst h <;> rfl
  · intro s e; rfl

/-- Witness for C1 at concrete inputs. -/
theorem C1_error_to_string_witness :
    get_stock_info "AAPL" (.error "boom") = "Error: boom" ∧
    get_historical_prices "AAPL" "1mo" "1d" (fun _ _ => .error "net down") =
      "Error: net down" ∧
    get_stock_news "AAPL" (.error "boom") = "Error: boom" ∧
    get_financial_statement "AAPL" "income" (.error "boom") (.ok ⟨[], []⟩)
      (.ok ⟨[], []⟩) = "Error: boom" ∧
    get_recommendations "AAPL" (.error "boom") = "Error: boom" :=
  ⟨C1_error_to_string.1 "AAPL" (.error "boom") "boom" rfl,
   C1_error_to_string.2.1 "AAPL" "1mo" "1d" (fun _ _ => .error "net down")
     "net down" rfl,
   C1_error_to_string.2.2.1 "AAPL" (.error "boom") "boom" rfl,
   C1_error_to_string.2.2.2.1 "AAPL" "income" (.error "boom") (.ok ⟨[], []⟩)
     (.ok ⟨[], []⟩) "boom" rfl,
   C1_error_to_string.2.2.2.2.1 "AAPL" (.error "boom") "boom" rfl⟩

/-- C2: for any symbol and any `statement_type` outside
`{income, balance, cashflow}`, `get_financial_statement` returns exactly the
usage string, whatever the three provider tables would have done (so no
fetch is consulted and no exception path is taken). -/
theorem C2_invalid_statement_type (symbol statement_type : String)
    (financials balance_sheet cashflow : Except String FinFrame)
    (h1 : statement_type ≠ "income") (h2 : statement_type ≠ "balance")
    (h3 : statement_type ≠ "cashflow") :
    get_financial_statement symbol statement_type financials balance_sheet
      cashflow = "Invalid statement_type. Use: income, balance, or cashflow" := by
  simp [get_financial_statement, finBody, wrap, h1, h2, h3]

/-- Witness for C2: an invalid statement type returns the usage string even
when every provider table fetch would raise. -/
theorem C2_invalid_statement_type_witness :
    get_financial_statement "AAPL" "quarterly" (.error "x") (.error "y")
      (.error "z") = "Invalid statement_type. Use: income, balance, or cashflow" :=
  C2_invalid_statement_type "AAPL" "quarterly" (.error "x") (.error "y")
    (.error "z") (by decide) (by decide) (by decide)

/-- C3 counterexample: a non-empty history table whose index resets to a
`Datetime` column (as intraday `ticker.history` calls return) makes
`hist['Date']` raise a `KeyError`, so the handler returns an `"Error: ..."`
string instead of serialized rows — contradicting the claim for such calls. -/
theorem C3_datetime_index_counterexample :
    intradayFrame.isEmpty = false ∧
    get_historical_prices "AAPL" "5d" "1m" (fun _ _ => .ok intradayFrame) =
      "Error: " ++ "KeyError: Date" ∧
    ¬ ∃ rows : List Row,
        get_historical_prices "AAPL" "5d" "1m" (fun _ _ => .ok intradayFrame) =
          toJsonRecords rows := by
  refine ⟨rfl, rfl, ?_⟩
  rintro ⟨rows, h⟩
  rw [show get_historical_prices "AAPL" "5d" "1m"
      (fun _ _ => .ok intradayFrame) = "Error: " ++ "KeyError: Date" from rfl]
    at h
  exact err_ne_dumps_list "KeyError: Date" (rows.map PyVal.dict) h

/-- C3 (amended): for every non-empty history table whose index resets to a
column named `Date`, the handler stringifies that column, keeps only the last
20 rows in original order (a suffix of the row list, hence preserving any
non-decreasing date order), and serializes them as an array of row objects;
every returned row's `Date` field is a string. -/
theorem C3_hist_last20 (symbol period interval : String) (f : Frame)
    (hne : f.isEmpty = false) (hidx : f.indexName = "Date") :
    ∃ out : List Row,
      get_historical_prices symbol period interval (fun _ _ => .ok f) =
        toJsonRecords out ∧
      out = tailN 20 (stringifyCol "Date" f.resetIndex) ∧
      out.length ≤ 20 ∧
      out <:+ stringifyCol "Date" f.resetIndex ∧
      (∀ r ∈ out, ∃ s, r.lookup "Date" = some (.str s)) ∧
      (∀ R : String → String → Prop,
        ((stringifyCol "Date" f.resetIndex).map dateStr).Pairwise R →
        (out.map dateStr).Pairwise R) := by
  refine ⟨tailN 20 (stringifyCol "Date" f.resetIndex), ?_, rfl,
    tailN_length_le _ _, tailN_suffix _ _, ?_, ?_⟩
  · simp [get_historical_prices, histBody, wrap, hne, Frame.resetCols, hidx]
  · intro r hr
    have hr2 := (tailN_suffix 20 _).sublist.mem hr
    simp only [stringifyCol, List.mem_map] at hr2
    obtain ⟨r0, hr0, rfl⟩ := hr2
    simp only [Frame.resetIndex, List.mem_map] at hr0
    obtain ⟨p, _, rfl⟩ := hr0
    refine ⟨pyStr p.1, ?_⟩
    rw [List.map_cons]
    have hhead : (if (f.indexName, p.1).1 = "Date"
        then ((f.indexName, p.1).1, PyVal.str (pyStr (f.indexName, p.1).2))
        else (f.indexName, p.1)) = ("Date", PyVal.str (pyStr p.1)) := by
      simp [hidx]
    rw [hhead]
    simp [List.lookup]
  · intro R hp
    exact hp.sublist ((tailN_suffix 20 _).map dateStr).sublist

/-- Witness for C3 (amended) at a concrete daily frame. -/
theorem C3_hist_last20_witness :
    dailyFrame.isEmpty = false ∧ dailyFrame.indexName = "Date" ∧
    ∃ out : List Row,
      get_historical_prices "AAPL" "1mo" "1d" (fun _ _ => .ok dailyFrame) =
        toJsonRecords out ∧
      out = tailN 20 (stringifyCol "Date" dailyFrame.resetIndex) ∧
      out.length ≤ 20 ∧
      out <:+ stringifyCol "Date" dailyFrame.resetIndex ∧
      (∀ r ∈ out, ∃ s, r.lookup "Date" = some (.str s)) ∧
      (∀ R : String → String → Prop,
        ((stringifyCol "Date" dailyFrame.resetIndex).map dateStr).Pairwise R →
        (out.map dateStr).Pairwise R) :=
  ⟨rfl, rfl, C3_hist_last20 "AAPL" "1mo" "1d" dailyFrame rfl rfl⟩

/-- C8: an empty history table yields the sentinel
`"No data found for {symbol}"` as a normal result, which is never an
`"Error: ..."` string (and, the handler being a total function into `String`,
no fault is raised). -/
theorem C8_empty_hist_sentinel (symbol period interval : String) (f : Frame)
    (h : f.isEmpty = true) :
    get_historical_prices symbol period interval (fun _ _ => .ok f) =
      "No data found for " ++ symbol ∧
    (∀ e, "No data found for " ++ symbol ≠ "Error: " ++ e) := by
  refine ⟨?_, fun e => nodata_ne_err symbol e⟩
  simp [get_historical_prices, histBody, wrap, h]

/-- Witness for C8 at a concrete empty frame. -/
theorem C8_empty_hist_sentinel_witness :
    get_historical_prices "MSFT" "1mo" "1d" (fun _ _ => .ok ⟨"Date", [], []⟩) =
      "No data found for " ++ "MSFT" ∧
    (∀ e, "No data found for " ++ "MSFT" ≠ "Error: " ++ e) :=
  C8_empty_hist_sentinel "MSFT" "1mo" "1d" ⟨"Date", [], []⟩ rfl

/-- C9: for every non-empty recommendations table, the handler serializes
exactly the most recent 10 processed rows (`tail(10)`, a suffix of the
processed row list), so never more than 10 rows. -/
theorem C9_recs_last10 (symbol : String) (recs : Frame)
    (h : recs.isEmpty = false) :
    ∃ out : List Row,
      get_recommendations symbol (.ok (some recs)) = toJsonRecords out ∧
      out = tailN 10 (recsDateFix recs.resetCols recs.resetIndex) ∧
      out.length ≤ 10 ∧
      out <:+ recsDateFix recs.resetCols recs.resetIndex := by
  refine ⟨tailN 10 (recsDateFix recs.resetCols recs.resetIndex), ?_, rfl,
    tailN_length_le _ _, tailN_suffix _ _⟩
  simp [get_recommendations, recsBody, wrap, h]

/-- Witness for C9 at a concrete recommendations frame. -/
theorem C9_recs_last10_witness :
    recsFrame.isEmpty = false ∧
    ∃ out : List Row,
      get_recommendations "AAPL" (.ok (some recsFrame)) = toJsonRecords out ∧
      out = tailN 10 (recsDateFix recsFrame.resetCols recsFrame.resetIndex) ∧
      out.length ≤ 10 ∧
      out <:+ recsDateFix recsFrame.resetCols recsFrame.resetIndex :=
  ⟨rfl, C9_recs_last10 "AAPL" recsFrame rfl⟩

/-- C10: the price fallback `info.get("currentPrice") or
info.get("regularMarketPrice")` selects the fallback whenever the
`currentPrice` value is falsy — absent (hence `None`), null, or `0` — and in
particular a mapping with `currentPrice = 0` and `regularMarketPrice = 123`
produces a `price` field of `123` in the handler output. -/
theorem C10_price_fallback :
    (∀ info : Dict, (dGet info "currentPrice").truthy = false →
      pyOr (dGet info "currentPrice") (dGet info "regularMarketPrice") =
        dGet info "regularMarketPrice") ∧
    (∀ info : Dict, info.lookup "currentPrice" = Option.none →
      (dGet info "currentPrice").truthy = false) ∧
    PyVal.none.truthy = false ∧ (PyVal.num 0).truthy = false ∧
    (∃ fields, get_stock_info "AAPL" (.ok zeroPriceInfo) =
        dumps (.dict fields) ∧
      fields.lookup "price" = some (.num 123) ∧
      dGet zeroPriceInfo "currentPrice" = .num 0 ∧
      dGet zeroPriceInfo "regularMarketPrice" = .num 123) := by
  refine ⟨?_, ?_, rfl, by simp [PyVal.truthy],
    ⟨infoFields "AAPL" zeroPriceInfo (.str ""),
      info_ok "AAPL" zeroPriceInfo (.str "") (slice_absent zeroPriceInfo rfl),
      rfl, rfl, rfl⟩⟩
  · intro info h
    simp [pyOr, h]
  · intro info h
    simp [dGet, h, PyVal.truthy]

/-- Witness for C10: the fallback applies at a mapping whose `currentPrice`
is present but null. -/
theorem C10_price_fallback_witness :
    pyOr (dGet [("currentPrice", PyVal.none)] "currentPrice")
        (dGet [("currentPrice", PyVal.none)] "regularMarketPrice") =
      dGet [("currentPrice", PyVal.none)] "regularMarketPrice" :=
  C10_price_fallback.1 [("currentPrice", PyVal.none)] rfl

/-- C4 counterexample: a news item whose modern `content.title` field is
present but null. Python's `.get(key, default)` returns the stored value even
when it is `None`, so the serialized article's `title` is null — not a
string — refuting the claim that every returned item has non-null string
values. -/
theorem C4_null_title_counterexample :
    extractAll [nullTitleItem] = .ok [.dict nullTitleArticle] ∧
    get_stock_news "AAPL" (.ok [nullTitleItem]) =
      dumps (.list [.dict nullTitleArticle]) ∧
    nullTitleArticle.lookup "title" = some PyVal.none ∧
    ¬ ∃ s : String, nullTitleArticle.lookup "title" = some (.str s) := by
  refine ⟨rfl, rfl, rfl, ?_⟩
  rintro ⟨s, hs⟩
  have h0 : nullTitleArticle.lookup "title" = some PyVal.none := rfl
  rw [h0] at hs
  exact PyVal.noConfusion (Option.some.inj hs)

/-- C4 (amended): for every non-empty provider news list on which the
field extraction does not raise, the handler returns at most 5 items, each a
three-field object with `title`, `publisher` and `link` extracted by the
nested fallback (`content` shape first, legacy flat shape as the title
fallback); placeholder strings are substituted when the source fields are
absent, while a present source value — even null — passes through. -/
theorem C4_news_first5 (symbol : String) (news articles : List PyVal)
    (hne : news.isEmpty = false)
    (hok : extractAll (news.take 5) = .ok articles) :
    get_stock_news symbol (.ok news) = dumps (.list articles) ∧
    articles.length ≤ 5 ∧
    (∀ a ∈ articles, ∃ t p l,
      a = .dict [("title", t), ("publisher", p), ("link", l)]) ∧
    extractArticle (.dict []) =
      .ok (.dict [("title", .str "No title"), ("publisher", .str "Unknown"),
                  ("link", .str "")]) := by
  refine ⟨?_, ?_, ?_, rfl⟩
  · simp [get_stock_news, newsBody, wrap, hne, hok]
  · rw [extractAll_length _ _ hok]
    exact List.length_take_le 5 news
  · intro a ha
    obtain ⟨x, _, hx⟩ := extractAll_mem _ _ hok a ha
    exact extractArticle_shape x a hx

/-- Witness for C4 (amended) at a concrete one-item news list. -/
theorem C4_news_first5_witness :
    ([PyVal.dict []] : List PyVal).isEmpty = false ∧
    extractAll ([PyVal.dict []].take 5) =
      .ok [.dict [("title", .str "No title"), ("publisher", .str "Unknown"),
                  ("link", .str "")]] ∧
    (get_stock_news "AAPL" (.ok [PyVal.dict []]) =
      dumps (.list [.dict [("title", .str "No title"),
        ("publisher", .str "Unknown"), ("link", .str "")]]) ∧
     ([(.dict [("title", PyVal.str "No title"), ("publisher", .str "Unknown"),
        ("link", .str "")])] : List PyVal).length ≤ 5 ∧
     (∀ a ∈ ([(.dict [("title", PyVal.str "No title"),
        ("publisher", .str "Unknown"), ("link", .str "")])] : List PyVal),
       ∃ t p l, a = .dict [("title", t), ("publisher", p), ("link", l)]) ∧
     extractArticle (.dict []) =
      .ok (.dict [("title", .str "No title"), ("publisher", .str "Unknown"),
                  ("link", .str "")])) :=
  ⟨rfl, rfl, C4_news_first5 "AAPL" [PyVal.dict []]
    [.dict [("title", .str "No title"), ("publisher", .str "Unknown"),
            ("link", .str "")]] rfl rfl⟩

/-- C5 counterexample: a provider info mapping whose `longBusinessSummary`
is present but null makes `info.get("longBusinessSummary", "")[:500]` raise a
`TypeError`, so the handler returns an `"Error: ..."` string and no JSON
object at all — even though the provider info lookup itself succeeded. -/
theorem C5_null_summary_counterexample :
    nullSummaryInfo.lookup "longBusinessSummary" = some PyVal.none ∧
    get_stock_info "AAPL" (.ok nullSummaryInfo) =
      "Error: " ++ "TypeError: object is not subscriptable" ∧
    ¬ ∃ fields : List (String × PyVal),
        get_stock_info "AAPL" (.ok nullSummaryInfo) = dumps (.dict fields) := by
  refine ⟨rfl, rfl, ?_⟩
  rintro ⟨fields, hf⟩
  rw [show get_stock_info "AAPL" (.ok nullSummaryInfo) =
      "Error: " ++ "TypeError: object is not subscriptable" from rfl] at hf
  exact err_ne_dumps_dict _ _ hf

/-- C5 (amended): for every symbol whose provider info lookup succeeds and
whose summary slice does not raise (in particular whenever
`longBusinessSummary` is absent or a string), the handler returns the
serialization of a JSON object whose `symbol` field is the upper-cased input
symbol. -/
theorem C5_symbol_upper (symbol : String) (info : Dict) (summary : PyVal)
    (hok : pySlice (dGetD info "longBusinessSummary" (.str "")) 500 =
      .ok summary) :
    ∃ fields, get_stock_info symbol (.ok info) = dumps (.dict fields) ∧
      fields.lookup "symbol" = some (.str symbol.toUpper) :=
  ⟨infoFields symbol info summary, info_ok symbol info summary hok, rfl⟩

/-- Witness for C5 (amended) at a concrete lower-case symbol. -/
theorem C5_symbol_upper_witness :
    ∃ fields, get_stock_info "aapl" (.ok []) = dumps (.dict fields) ∧
      fields.lookup "symbol" = some (.str ("aapl".toUpper)) :=
  C5_symbol_upper "aapl" [] (.str "") (slice_absent [] rfl)

/-- C6 counterexample: when `longBusinessSummary` is present but null the
handler does not produce a summary of `""` — the slice raises and the whole
call returns an `"Error: ..."` string, refuting the claimed null-safe
default for this field. -/
theorem C6_null_summary_counterexample :
    nullSummaryInfo.lookup "longBusinessSummary" = some PyVal.none ∧
    get_stock_info "MSFT" (.ok nullSummaryInfo) =
      "Error: " ++ "TypeError: object is not subscriptable" ∧
    ¬ ∃ fields : List (String × PyVal),
        get_stock_info "MSFT" (.ok nullSummaryInfo) = dumps (.dict fields) ∧
        fields.lookup "summary" = some (.str "") := by
  refine ⟨rfl, rfl, ?_⟩
  rintro ⟨fields, hf, -⟩
  rw [show get_stock_info "MSFT" (.ok nullSummaryInfo) =
      "Error: " ++ "TypeError: object is not subscriptable" from rfl] at hf
  exact err_ne_dumps_dict _ _ hf

/-- C6 (amended): the `summary` field equals the first 500 characters of
`longBusinessSummary` when that field holds a string, and the empty string
when the field is absent; a present null value instead raises inside the
handler (no JSON output, an `"Error: ..."` string is returned — see the
counterexample). -/
theorem C6_summary_truncation (symbol : String) (info : Dict) :
    (info.lookup "longBusinessSummary" = Option.none →
      get_stock_info symbol (.ok info) =
        dumps (.dict (infoFields symbol info (.str ""))) ∧
      (infoFields symbol info (.str "")).lookup "summary" =
        some (.str "")) ∧
    (∀ s : String, info.lookup "longBusinessSummary" = some (.str s) →
      get_stock_info symbol (.ok info) =
        dumps (.dict (infoFields symbol info (.str (s.take 500)))) ∧
      (infoFields symbol info (.str (s.take 500))).lookup "summary" =
        some (.str (s.take 500))) := by
  constructor
  · intro h
    exact ⟨info_ok symbol info (.str "") (slice_absent info h), rfl⟩
  · intro s h
    refine ⟨info_ok symbol info (.str (s.take 500)) ?_, rfl⟩
    simp [dGetD, h, pySlice]

/-- Witness for C6 (amended): both the absent case and a 501-character
string case, the latter showing actual truncation to 500 characters. -/
theorem C6_summary_truncation_witness :
    (get_stock_info "IBM" (.ok []) =
        dumps (.dict (infoFields "IBM" [] (.str ""))) ∧
      (infoFields "IBM" [] (.str "")).lookup "summary" = some (.str "")) ∧
    (get_stock_info "IBM" (.ok [("longBusinessSummary", .str "hello")]) =
        dumps (.dict (infoFields "IBM" [("longBusinessSummary", .str "hello")]
          (.str ("hello".take 500)))) ∧
      (infoFields "IBM" [("longBusinessSummary", .str "hello")]
          (.str ("hello".take 500))).lookup "summary" =
        some (.str ("hello".take 500))) :=
  ⟨(C6_summary_truncation "IBM" []).1 rfl,
   (C6_summary_truncation "IBM" [("longBusinessSummary", .str "hello")]).2
     "hello" rfl⟩

/-- C7 counterexample: the object built by `get_stock_info` has exactly 14
fields, not seventeen. -/
theorem C7_fourteen_not_seventeen :
    (infoFields "AAPL" [] (.str "")).length = 14 ∧
    (infoFields "AAPL" [] (.str "")).length ≠ 17 := by
  exact ⟨rfl, by decide⟩

/-- C7 (amended): every successful `get_stock_info` output is the
serialization of an object with exactly fourteen named fields in fixed
order; on an empty provider mapping the twelve provider-selected data fields
default to null, `symbol` is computed from the input, and `summary` is the
separately computed truncation value. -/
theorem C7_fourteen_fields (symbol : String) (info : Dict) (summary : PyVal)
    (hok : pySlice (dGetD info "longBusinessSummary" (.str "")) 500 =
      .ok summary) :
    get_stock_info symbol (.ok info) =
      dumps (.dict (infoFields symbol info summary)) ∧
    (infoFields symbol info summary).length = 14 ∧
    (infoFields symbol info summary).map Prod.fst =
      ["symbol", "name", "price", "currency", "marketCap", "peRatio",
       "52WeekHigh", "52WeekLow", "volume", "avgVolume", "dividendYield",
       "sector", "industry", "summary"] ∧
    infoFields symbol [] summary =
      [("symbol", .str symbol.toUpper), ("name", PyVal.none),
       ("price", PyVal.none), ("currency", PyVal.none),
       ("marketCap", PyVal.none), ("peRatio", PyVal.none),
       ("52WeekHigh", PyVal.none), ("52WeekLow", PyVal.none),
       ("volume", PyVal.none), ("avgVolume", PyVal.none),
       ("dividendYield", PyVal.none), ("sector", PyVal.none),
       ("industry", PyVal.none), ("summary", summary)] :=
  ⟨info_ok symbol info summary hok, rfl, rfl, rfl⟩

/-- Witness for C7 (amended) at a concrete empty provider mapping. -/
theorem C7_fourteen_fields_witness :
    get_stock_info "msft" (.ok []) =
      dumps (.dict (infoFields "msft" [] (.str ""))) ∧
    (infoFields "msft" [] (.str "")).length = 14 ∧
    (infoFields "msft" [] (.str "")).map Prod.fst =
      ["symbol", "name", "price", "currency", "marketCap", "peRatio",
       "52WeekHigh", "52WeekLow", "volume", "avgVolume", "dividendYield",
       "sector", "industry", "summary"] ∧
    infoFields "msft" [] (.str "") =
      [("symbol", .str "msft".toUpper), ("name", PyVal.none),
       ("price", PyVal.none), ("currency", PyVal.none),
       ("marketCap", PyVal.none), ("peRatio", PyVal.none),
       ("52WeekHigh", PyVal.none), ("52WeekLow", PyVal.none),
       ("volume", PyVal.none), ("avgVolume", PyVal.none),
       ("dividendYield", PyVal.none), ("sector", PyVal.none),
       ("industry", PyVal.none), ("summary", .str "")] :=
  C7_fourteen_fields "msft" [] (.str "") (slice_absent [] rfl)

end YF
